import Mathlib

/-!
Verification of the FinNexusAI repository (three Python source files:
`src/apps/ai/models/advisory.py`, `src/apps/ai/models/analytics.py`,
`src/apps/ai/test_analytics.py`) against its natural-language specification.

The repository contains two stub functions returning hardcoded dictionaries and
one unit test importing a function `get_advanced_analytics` that no provided
source file defines.  The Python values involved are shallowly embedded as the
inductive type `PyVal` below: strings, numbers, lists, and insertion-ordered
dictionaries.  Numbers are modelled as rationals; every numeric literal in the
repository (integers such as `100` and decimal literals such as `0.12`) denotes
its exact rational value, and the only numeric operation anywhere in the code
is equality comparison of such literals, which Python decides numerically and
which therefore coincides with equality in `ℚ`.  No floating-point arithmetic
occurs in the repository.
-/

namespace FinNexusAI

/-- A Python value as used in this repository: a string, a number, a list, or
a dictionary with string keys kept in insertion order. -/
inductive PyVal : Type where
  | str  : String → PyVal
  | num  : ℚ → PyVal
  | list : List PyVal → PyVal
  | dict : List (String × PyVal) → PyVal

mutual

/-- Structural equality of embedded Python values. -/
def PyVal.beq : PyVal → PyVal → Bool
  | .str a, .str b => a == b
  | .num a, .num b => a == b
  | .list a, .list b => PyVal.beqList a b
  | .dict a, .dict b => PyVal.beqDict a b
  | _, _ => false
termination_by structural a => a

/-- Elementwise equality of lists of embedded Python values. -/
def PyVal.beqList : List PyVal → List PyVal → Bool
  | [], [] => true
  | x :: xs, y :: ys => PyVal.beq x y && PyVal.beqList xs ys
  | _, _ => false
termination_by structural a => a

/-- Entrywise equality of dictionary item lists. -/
def PyVal.beqDict : List (String × PyVal) → List (String × PyVal) → Bool
  | [], [] => true
  | (k, v) :: xs, (l, w) :: ys => k == l && PyVal.beq v w && PyVal.beqDict xs ys
  | _, _ => false
termination_by structural a => a

end

instance : BEq PyVal := ⟨PyVal.beq⟩

mutual

theorem PyVal.beq_iff : ∀ a b : PyVal, PyVal.beq a b = true ↔ a = b
  | .str a, .str b => by simp [PyVal.beq]
  | .num a, .num b => by simp [PyVal.beq]
  | .list a, .list b => by
      simp only [PyVal.beq, PyVal.beqList_iff a b, PyVal.list.injEq]
  | .dict a, .dict b => by
      simp only [PyVal.beq, PyVal.beqDict_iff a b, PyVal.dict.injEq]
  | .str _, .num _ => by simp [PyVal.beq]
  | .str _, .list _ => by simp [PyVal.beq]
  | .str _, .dict _ => by simp [PyVal.beq]
  | .num _, .str _ => by simp [PyVal.beq]
  | .num _, .list _ => by simp [PyVal.beq]
  | .num _, .dict _ => by simp [PyVal.beq]
  | .list _, .str _ => by simp [PyVal.beq]
  | .list _, .num _ => by simp [PyVal.beq]
  | .list _, .dict _ => by simp [PyVal.beq]
  | .dict _, .str _ => by simp [PyVal.beq]
  | .dict _, .num _ => by simp [PyVal.beq]
  | .dict _, .list _ => by simp [PyVal.beq]

theorem PyVal.beqList_iff : ∀ a b : List PyVal, PyVal.beqList a b = true ↔ a = b
  | [], [] => by simp [PyVal.beqList]
  | [], _ :: _ => by simp [PyVal.beqList]
  | _ :: _, [] => by simp [PyVal.beqList]
  | x :: xs, y :: ys => by
      simp [PyVal.beqList, PyVal.beq_iff x y, PyVal.beqList_iff xs ys]

theorem PyVal.beqDict_iff :
    ∀ a b : List (String × PyVal), PyVal.beqDict a b = true ↔ a = b
  | [], [] => by simp [PyVal.beqDict]
  | [], _ :: _ => by simp [PyVal.beqDict]
  | _ :: _, [] => by simp [PyVal.beqDict]
  | (k, v) :: xs, (l, w) :: ys => by
      simp [PyVal.beqDict, PyVal.beq_iff v w, PyVal.beqDict_iff xs ys,
        Bool.and_assoc]
      tauto

end

instance : DecidableEq PyVal := fun a b =>
  decidable_of_iff (PyVal.beq a b = true) (PyVal.beq_iff a b)

/-- Key lookup in a dictionary item list (the dictionaries built by this
repository have pairwise-distinct keys, so first match is the dict entry). -/
def dictLookup : List (String × PyVal) → String → Option PyVal
  | [], _ => none
  | (k, v) :: rest, key => if k = key then some v else dictLookup rest key

/-- Python subscription `v[key]` for string keys: defined when `v` is a
dictionary containing `key`. -/
def pyGet (v : PyVal) (key : String) : Option PyVal :=
  match v with
  | .dict d => dictLookup d key
  | _ => none

/-- Embeds `recommend_portfolio` from `src/apps/ai/models/advisory.py`
(lines 4-10): the body is a single `return` of a dict literal of two string
constants; the parameters `user_profile` and `market_data` are unused. -/
def recommend_portfolio (user_profile market_data : PyVal) : PyVal :=
  PyVal.dict
    [("recommendation", PyVal.str "Buy $500 ETH if it dips 5%"),
     ("reasoning", PyVal.str "ETH shows strong support at current levels.")]

/-- Embeds `market_analytics` from `src/apps/ai/models/analytics.py`
(lines 1-11): the body is a single `return` of a dict literal; the parameters
`market_data` and `sentiment_data` are unused. -/
def market_analytics (market_data sentiment_data : PyVal) : PyVal :=
  PyVal.dict
    [("marketSentiment", PyVal.str "Bullish"),
     ("topTraders", PyVal.list [PyVal.str "alice", PyVal.str "bob"]),
     ("leaderboard", PyVal.list
       [PyVal.dict [("username", PyVal.str "alice"), ("score", PyVal.num 100)],
        PyVal.dict [("username", PyVal.str "bob"), ("score", PyVal.num 90)]])]

/-- The body of `recommend_portfolio` under exceptional semantics: the body
consists of one `return` of a dict literal of string constants, an expression
containing no fallible operation, so evaluation yields `ok` on every input. -/
def recommendPortfolioExc (user_profile market_data : PyVal) :
    Except String PyVal :=
  Except.ok (PyVal.dict
    [("recommendation", PyVal.str "Buy $500 ETH if it dips 5%"),
     ("reasoning", PyVal.str "ETH shows strong support at current levels.")])

/-- The body of `market_analytics` under exceptional semantics: one `return`
of a dict literal of constants, with no fallible operation. -/
def marketAnalyticsExc (market_data sentiment_data : PyVal) :
    Except String PyVal :=
  Except.ok (PyVal.dict
    [("marketSentiment", PyVal.str "Bullish"),
     ("topTraders", PyVal.list [PyVal.str "alice", PyVal.str "bob"]),
     ("leaderboard", PyVal.list
       [PyVal.dict [("username", PyVal.str "alice"), ("score", PyVal.num 100)],
        PyVal.dict [("username", PyVal.str "bob"), ("score", PyVal.num 90)]])])

/-- The body of `recommend_portfolio` under state-passing semantics over the
global namespace: the body is a literal expression that reads no name from and
binds no name in the global namespace, so it returns the pure result and
passes the namespace through unchanged. -/
def recommendPortfolioSt (user_profile market_data : PyVal)
    (globals : List (String × PyVal)) : PyVal × List (String × PyVal) :=
  (recommend_portfolio user_profile market_data, globals)

/-- The body of `market_analytics` under state-passing semantics over the
global namespace: a literal expression touching no global name. -/
def marketAnalyticsSt (market_data sentiment_data : PyVal)
    (globals : List (String × PyVal)) : PyVal × List (String × PyVal) :=
  (market_analytics market_data sentiment_data, globals)

/-- The names defined at top level by `src/apps/ai/models/analytics.py`: the
file contains exactly one `def` statement, `market_analytics`. -/
def analyticsModuleNames : List String := ["market_analytics"]

/-- The names defined at top level by `src/apps/ai/models/advisory.py`: the
file contains exactly one `def` statement, `recommend_portfolio`. -/
def advisoryModuleNames : List String := ["recommend_portfolio"]

/-- The names defined at top level by `src/apps/ai/test_analytics.py` itself
(its `import` statements attempt bindings but define nothing): exactly the
class `TestAIAnalytics`. -/
def testModuleDefNames : List String := ["TestAIAnalytics"]

/-- Embeds Python `from M import name`: resolution succeeds exactly when the
module defines `name`; otherwise loading stops with an ImportError. -/
def resolveImport (moduleNames : List String) (name : String) :
    Except String Unit :=
  if name ∈ moduleNames then Except.ok ()
  else Except.error ("ImportError: cannot import name " ++ name)

/-- Embeds loading `src/apps/ai/test_analytics.py`: the statement
`from analytics import get_advanced_analytics` at line 2 runs before the test
class is created, so the module loads only if that import resolves. -/
def loadTestModule : Except String Unit :=
  match resolveImport analyticsModuleNames "get_advanced_analytics" with
  | Except.error e => Except.error e
  | Except.ok _ => Except.ok ()

/-- The list literal `[1200, 950, 800]` the test compares `result['forecasts']`
against (`src/apps/ai/test_analytics.py`, line 9). -/
def forecastsLit : PyVal :=
  PyVal.list [PyVal.num 1200, PyVal.num 950, PyVal.num 800]

/-- The literal `0.12` the test compares `result['volatility']` against
(`src/apps/ai/test_analytics.py`, line 10). -/
def volatilityLit : PyVal := PyVal.num 0.12

/-- The list literal `[0.2, 0.4, 0.1]` the test compares `result['riskScores']`
against (`src/apps/ai/test_analytics.py`, line 11). -/
def riskScoresLit : PyVal :=
  PyVal.list [PyVal.num 0.2, PyVal.num 0.4, PyVal.num 0.1]

/-- Embeds the body of `test_get_advanced_analytics`
(`src/apps/ai/test_analytics.py`, lines 5-12) applied to a returned dictionary
`d`: the three `assertIn` checks are key membership and the three
`assertEqual` checks are equality with the literals; the test passes exactly
when all six assertions pass. -/
def testAssertionsPass (d : List (String × PyVal)) : Prop :=
  (dictLookup d "forecasts").isSome = true ∧
  (dictLookup d "volatility").isSome = true ∧
  (dictLookup d "riskScores").isSome = true ∧
  dictLookup d "forecasts" = some forecastsLit ∧
  dictLookup d "volatility" = some volatilityLit ∧
  dictLookup d "riskScores" = some riskScoresLit

instance (d : List (String × PyVal)) : Decidable (testAssertionsPass d) := by
  unfold testAssertionsPass
  infer_instance

/-- A returned dictionary has exactly the keys `forecasts`, `volatility`,
`riskScores`, bound to the test's three literal values, and no other key. -/
def exactAdvancedMapping (d : List (String × PyVal)) : Prop :=
  dictLookup d "forecasts" = some forecastsLit ∧
  dictLookup d "volatility" = some volatilityLit ∧
  dictLookup d "riskScores" = some riskScoresLit ∧
  ∀ kv ∈ d, kv.1 = "forecasts" ∨ kv.1 = "volatility" ∨ kv.1 = "riskScores"

instance (d : List (String × PyVal)) : Decidable (exactAdvancedMapping d) := by
  unfold exactAdvancedMapping
  have hball : Decidable (∀ kv ∈ d,
      kv.1 = "forecasts" ∨ kv.1 = "volatility" ∨ kv.1 = "riskScores") :=
    List.decidableBAll _ d
  infer_instance

/-- A candidate return value for `get_advanced_analytics` that carries the
three required entries plus one extra key. -/
def extraKeyResult : List (String × PyVal) :=
  [("forecasts", forecastsLit), ("volatility", volatilityLit),
   ("riskScores", riskScoresLit), ("extra", PyVal.num 1)]

/-- Modelled from the spec: `get_advanced_analytics` is defined in no provided
source file (only the test imports it); spec sections 3 and 8 fix its contract
as a zero-argument function returning the mapping with `forecasts` bound to
`[1200, 950, 800]`, `volatility` bound to `0.12`, and `riskScores` bound to
`[0.2, 0.4, 0.1]`. -/
def get_advanced_analytics : PyVal :=
  PyVal.dict
    [("forecasts", PyVal.list [PyVal.num 1200, PyVal.num 950, PyVal.num 800]),
     ("volatility", PyVal.num 0.12),
     ("riskScores", PyVal.list [PyVal.num 0.2, PyVal.num 0.4, PyVal.num 0.1])]

/-- The results of `n` successive calls of a two-argument function on the same
pair of arguments, in call order. -/
def repeatedCalls (f : PyVal → PyVal → PyVal) (a b : PyVal) (n : ℕ) :
    List PyVal :=
  (List.range n).map fun _ => f a b

/-- The results of `n` successive calls of a zero-argument function whose
evaluation yields `v`, in call order. -/
def repeatedCallsNullary (v : PyVal) (n : ℕ) : List PyVal :=
  (List.range n).map fun _ => v

/-- The leaderboard entries of an analytics result: the list bound to the key
`leaderboard`. -/
def leaderboardEntries (v : PyVal) : List PyVal :=
  match pyGet v "leaderboard" with
  | some (PyVal.list l) => l
  | _ => []

/-- The top-traders sequence of an analytics result: the list bound to the key
`topTraders`. -/
def topTradersOf (v : PyVal) : List PyVal :=
  match pyGet v "topTraders" with
  | some (PyVal.list l) => l
  | _ => []

/-- The `username` field of a leaderboard entry. -/
def entryUsername (e : PyVal) : Option PyVal := pyGet e "username"

/-- The `score` field of a leaderboard entry. -/
def entryScore (e : PyVal) : Option PyVal := pyGet e "score"

/-- Entry `e1` strictly outscores entry `e2`: both carry numeric scores and
the first score is strictly greater. -/
def outscores (e1 e2 : PyVal) : Bool :=
  match entryScore e1, entryScore e2 with
  | some (PyVal.num q1), some (PyVal.num q2) => q2 < q1
  | _, _ => false

/-- C1: for every pair of inputs `user_profile` and `market_data`,
`recommend_portfolio` returns exactly the mapping binding `recommendation` to
"Buy $500 ETH if it dips 5%" and `reasoning` to "ETH shows strong support at
current levels.". -/
theorem recommend_portfolio_fixed_output (user_profile market_data : PyVal) :
    recommend_portfolio user_profile market_data =
      PyVal.dict
        [("recommendation", PyVal.str "Buy $500 ETH if it dips 5%"),
         ("reasoning",
          PyVal.str "ETH shows strong support at current levels.")] :=
  rfl

/-- C2: for every pair of inputs `market_data` and `sentiment_data`,
`market_analytics` returns exactly the mapping binding `marketSentiment` to
"Bullish", `topTraders` to the sequence alice, bob in that order, and
`leaderboard` to the two username/score entries in that order. -/
theorem market_analytics_fixed_output (market_data sentiment_data : PyVal) :
    market_analytics market_data sentiment_data =
      PyVal.dict
        [("marketSentiment", PyVal.str "Bullish"),
         ("topTraders", PyVal.list [PyVal.str "alice", PyVal.str "bob"]),
         ("leaderboard", PyVal.list
           [PyVal.dict
             [("username", PyVal.str "alice"), ("score", PyVal.num 100)],
            PyVal.dict
             [("username", PyVal.str "bob"), ("score", PyVal.num 90)]])] :=
  rfl

/-- C3: `get_advanced_analytics` returns a mapping whose `forecasts` entry is
the list with 1200, 950, 800, whose `volatility` entry is 0.12, and whose
`riskScores` entry is the list with 0.2, 0.4, 0.1. -/
theorem get_advanced_analytics_contract :
    (∃ items, get_advanced_analytics = PyVal.dict items) ∧
    pyGet get_advanced_analytics "forecasts" =
      some (PyVal.list [PyVal.num 1200, PyVal.num 950, PyVal.num 800]) ∧
    pyGet get_advanced_analytics "volatility" = some (PyVal.num 0.12) ∧
    pyGet get_advanced_analytics "riskScores" =
      some (PyVal.list [PyVal.num 0.2, PyVal.num 0.4, PyVal.num 0.1]) :=
  ⟨⟨_, rfl⟩, rfl, rfl, rfl⟩

/-- C4: `get_advanced_analytics` is defined in none of the provided source
files, so loading the test module stops at the import on line 2 with a
resolution error, before any test body runs. -/
theorem test_import_fails_at_load :
    "get_advanced_analytics" ∉ analyticsModuleNames ∧
    "get_advanced_analytics" ∉ advisoryModuleNames ∧
    "get_advanced_analytics" ∉ testModuleDefNames ∧
    loadTestModule =
      Except.error "ImportError: cannot import name get_advanced_analytics" :=
  ⟨by decide, by decide, by decide, rfl⟩

/-- C5 counterexample: the dictionary `extraKeyResult` passes every assertion
of the test body yet is not a mapping with exactly the three required keys, so
passing the test is not equivalent to returning exactly that mapping. -/
theorem test_admits_extra_keys :
    testAssertionsPass extraKeyResult ∧
    ¬ exactAdvancedMapping extraKeyResult := by
  constructor
  · exact ⟨rfl, rfl, rfl, rfl, rfl, rfl⟩
  · intro h
    have hmem : ("extra", PyVal.num 1) ∈ extraKeyResult :=
      List.mem_cons_of_mem _ (List.mem_cons_of_mem _
        (List.mem_cons_of_mem _ (List.mem_cons_self _ _)))
    have hball := h.2.2.2 ("extra", PyVal.num 1) hmem
    rcases hball with h1 | h1 | h1 <;> exact absurd h1 (by decide)

/-- C5 (amended): an implementation of `get_advanced_analytics` passes the
test body exactly when its returned mapping binds `forecasts`, `volatility`
and `riskScores` to the test's three literal values; keys beyond these three
are unconstrained. -/
theorem test_passes_iff_required_entries (d : List (String × PyVal)) :
    testAssertionsPass d ↔
      (dictLookup d "forecasts" = some forecastsLit ∧
       dictLookup d "volatility" = some volatilityLit ∧
       dictLookup d "riskScores" = some riskScoresLit) := by
  constructor
  · rintro ⟨_, _, _, h1, h2, h3⟩
    exact ⟨h1, h2, h3⟩
  · rintro ⟨h1, h2, h3⟩
    refine ⟨?_, ?_, ?_, h1, h2, h3⟩ <;> simp [h1, h2, h3]

/-- C6: the outputs of the two stub functions do not depend on their inputs:
any two calls with any two argument pairs return equal values. -/
theorem stub_outputs_input_independent (a1 b1 a2 b2 : PyVal) :
    recommend_portfolio a1 b1 = recommend_portfolio a2 b2 ∧
    market_analytics a1 b1 = market_analytics a2 b2 :=
  ⟨rfl, rfl⟩

/-- C7: in a sequence of repeated calls with fixed arguments (or, for
`get_advanced_analytics`, with no arguments), every call returns the value the
first call returned. -/
theorem repeated_calls_constant (a b x y z : PyVal) (n : ℕ)
    (hx : x ∈ repeatedCalls recommend_portfolio a b n)
    (hy : y ∈ repeatedCalls market_analytics a b n)
    (hz : z ∈ repeatedCallsNullary get_advanced_analytics n) :
    x = recommend_portfolio a b ∧ y = market_analytics a b ∧
    z = get_advanced_analytics := by
  obtain ⟨i, hi, hieq⟩ := List.mem_map.mp hx
  obtain ⟨j, hj, hjeq⟩ := List.mem_map.mp hy
  obtain ⟨k, hk, hkeq⟩ := List.mem_map.mp hz
  exact ⟨hieq.symm, hjeq.symm, hkeq.symm⟩

/-- Witness for C7 at two calls of each function on concrete arguments. -/
theorem repeated_calls_constant_witness :
    (recommend_portfolio (PyVal.num 0) (PyVal.num 0) ∈
        repeatedCalls recommend_portfolio (PyVal.num 0) (PyVal.num 0) 2 ∧
     market_analytics (PyVal.num 0) (PyVal.num 0) ∈
        repeatedCalls market_analytics (PyVal.num 0) (PyVal.num 0) 2 ∧
     get_advanced_analytics ∈ repeatedCallsNullary get_advanced_analytics 2) ∧
    (recommend_portfolio (PyVal.num 0) (PyVal.num 0) =
        recommend_portfolio (PyVal.num 0) (PyVal.num 0) ∧
     market_analytics (PyVal.num 0) (PyVal.num 0) =
        market_analytics (PyVal.num 0) (PyVal.num 0) ∧
     get_advanced_analytics = get_advanced_analytics) := by
  have hx : recommend_portfolio (PyVal.num 0) (PyVal.num 0) ∈
      repeatedCalls recommend_portfolio (PyVal.num 0) (PyVal.num 0) 2 := by
    simp [repeatedCalls]
  have hy : market_analytics (PyVal.num 0) (PyVal.num 0) ∈
      repeatedCalls market_analytics (PyVal.num 0) (PyVal.num 0) 2 := by
    simp [repeatedCalls]
  have hz : get_advanced_analytics ∈
      repeatedCallsNullary get_advanced_analytics 2 := by
    simp [repeatedCallsNullary]
  exact ⟨⟨hx, hy, hz⟩, repeated_calls_constant _ _ _ _ _ 2 hx hy hz⟩

/-- C8: on every input pair (of any embedded type) the stub bodies evaluate
without raising, returning their result mappings. -/
theorem stub_calls_cannot_fail (a b : PyVal) :
    recommendPortfolioExc a b = Except.ok (recommend_portfolio a b) ∧
    marketAnalyticsExc a b = Except.ok (market_analytics a b) :=
  ⟨rfl, rfl⟩

/-- C9: the stub calls neither modify nor depend on the global namespace: the
namespace passes through every call unchanged, and the returned value is the
same under any two namespaces. -/
theorem stub_calls_no_side_effects (a b : PyVal)
    (g g1 g2 : List (String × PyVal)) :
    (recommendPortfolioSt a b g).2 = g ∧
    (marketAnalyticsSt a b g).2 = g ∧
    (recommendPortfolioSt a b g1).1 = (recommendPortfolioSt a b g2).1 ∧
    (marketAnalyticsSt a b g1).1 = (marketAnalyticsSt a b g2).1 :=
  ⟨rfl, rfl, rfl, rfl⟩

/-- C10: in every `market_analytics` result the leaderboard is sorted in
strictly decreasing score order, its usernames are pairwise distinct, and
`topTraders` is exactly the sequence of leaderboard usernames in the same
order (so the two sequences have equal length). -/
theorem leaderboard_invariants (m s : PyVal) :
    List.Chain' (fun e1 e2 => outscores e1 e2 = true)
      (leaderboardEntries (market_analytics m s)) ∧
    ((leaderboardEntries (market_analytics m s)).map entryUsername).Nodup ∧
    (topTradersOf (market_analytics m s)).map some =
      (leaderboardEntries (market_analytics m s)).map entryUsername ∧
    (topTradersOf (market_analytics m s)).length =
      (leaderboardEntries (market_analytics m s)).length := by
  refine ⟨?_, ?_, rfl, rfl⟩
  · show List.Chain' (fun e1 e2 => outscores e1 e2 = true)
      [PyVal.dict [("username", PyVal.str "alice"), ("score", PyVal.num 100)],
       PyVal.dict [("username", PyVal.str "bob"), ("score", PyVal.num 90)]]
    exact List.chain'_pair.mpr (by decide)
  · show (List.map entryUsername
      [PyVal.dict [("username", PyVal.str "alice"), ("score", PyVal.num 100)],
       PyVal.dict [("username", PyVal.str "bob"),
         ("score", PyVal.num 90)]]).Nodup
    simp only [List.map_cons, List.map_nil, List.nodup_cons, List.not_mem_nil,
      List.nodup_nil, List.mem_singleton, and_true, not_false_iff]
    decide
